import Mathlib

/-!
Shallow embedding of `src/main.py` (gmail-ai): an email triage pipeline that
lists Gmail messages, classifies each snippet with an LLM, resolves a context
string from an in-memory mock database, composes a reply with an LLM, and
saves it as a draft.  External services (Gmail API, LLM backend, MIME/base64
encoding, HTML unescaping) are modelled as an explicit environment of
functions; calls that can raise a Python exception are modelled with
`Except Unit`.
-/

/-- `Product` pydantic model (src/main.py lines 106-111). -/
structure Product where
  id : String
  name : String
  price : ℚ
  stock : Int
  category : String
deriving DecidableEq, Repr

/-- Calendar date standing in for Python `datetime` (only constructed, never read). -/
structure PyDateTime where
  year : Nat
  month : Nat
  day : Nat
deriving DecidableEq, Repr

/-- `Order` pydantic model (src/main.py lines 114-120). -/
structure Order where
  id : String
  customer_email : String
  status : String
  items : List String
  order_date : PyDateTime
  tracking_number : Option String
deriving DecidableEq, Repr

/-- A Python `dict` with string keys, as an association list; `dictGet` is `dict.get`. -/
def dictGet {α : Type} (m : List (String × α)) (k : String) : Option α :=
  (m.find? (fun p => p.1 == k)).map Prod.snd

/-- State of a `MockDatabase` object: its `products` and `orders` dicts
(src/main.py lines 123-166 populate them in `__init__`). -/
structure MockDatabase where
  products : List (String × Product)
  orders : List (String × Order)
deriving DecidableEq, Repr

/-- The catalog built by `MockDatabase.__init__` (src/main.py lines 124-166). -/
def MockDatabase.init : MockDatabase :=
  { products :=
      [ ("NIKE001",
         { id := "NIKE001", name := "Nike Air Zoom Pro", price := 129.99,
           stock := 15, category := "running_shoes" }),
        ("ADIDAS001",
         { id := "ADIDAS001", name := "Adidas Champions League Ball 2024", price := 149.99,
           stock := 0, category := "football" }),
        ("YOGA001",
         { id := "YOGA001", name := "Premium Yoga Mat", price := 49.99,
           stock := 23, category := "yoga" }) ],
    orders :=
      [ ("ORD54321",
         { id := "ORD54321", customer_email := "margaret.brown@email.com",
           status := "processing", items := ["YOGA001"],
           order_date := ⟨2024, 12, 28⟩, tracking_number := none }),
        ("ORD54322",
         { id := "ORD54322", customer_email := "anna.smith@email.com",
           status := "shipped", items := ["NIKE001"],
           order_date := ⟨2024, 12, 20⟩, tracking_number := some "TRK123456789" }) ] }

/-- `MockDatabase.check_stock` (src/main.py lines 168-169). -/
def check_stock (db : MockDatabase) (product_id : String) : Option Product :=
  dictGet db.products product_id

/-- `MockDatabase.get_order_status` (src/main.py lines 171-172). -/
def get_order_status (db : MockDatabase) (order_id : String) : Option Order :=
  dictGet db.orders order_id

/-- `MockDatabase.search_orders_by_email` (src/main.py lines 174-175). -/
def search_orders_by_email (db : MockDatabase) (email : String) : List Order :=
  (db.orders.map Prod.snd).filter (fun o => o.customer_email == email)

/-- Method-call view of `check_stock`: result paired with the object state after
the call.  The body only reads `self.products`, so the state is unchanged. -/
def check_stock_call (db : MockDatabase) (product_id : String) :
    Option Product × MockDatabase :=
  (check_stock db product_id, db)

/-- Method-call view of `get_order_status`; the body only reads `self.orders`. -/
def get_order_status_call (db : MockDatabase) (order_id : String) :
    Option Order × MockDatabase :=
  (get_order_status db order_id, db)

/-- Method-call view of `search_orders_by_email`; the body only reads `self.orders`. -/
def search_orders_by_email_call (db : MockDatabase) (email : String) :
    List Order × MockDatabase :=
  (search_orders_by_email db email, db)

/-- Python truthiness fallback `x or d` for `x : Optional[str]`: `None` and
the empty string are falsy. -/
def pyOrStr : Option String → String → String
  | some s, d => if s == "" then d else s
  | none, d => d

/-- `EmailResponseGenerator._get_context` (src/main.py lines 209-221).  Takes the
category as the raw string Python passes around. -/
def get_context (db : MockDatabase) (category : String) : String :=
  if category == "order_status" then
    match get_order_status db "ORD54321" with
    | some order =>
        "Order ORD54321 is " ++ order.status ++ ". Tracking number: " ++
          pyOrStr order.tracking_number "Not yet available"
    | none => "No additional context available"
  else if category == "stock_inquiry" then
    match check_stock db "ADIDAS001" with
    | some product =>
        "Product " ++ product.name ++ " stock level: " ++ toString product.stock
    | none => "No additional context available"
  else
    "No additional context available"

/-! ## Email-address extraction (src/main.py lines 226-232)

`create_draft_email` runs `re.compile(r'"?([^"]*)"?\s*<(.+?)>').search(to)` and
takes `group(2)` on a match, else `to.strip()`.  The fixed pattern is embedded
as a backtracking matcher over `List Char`: `"?` and the second `"?` are greedy
optionals, `[^"]*` is a greedy star of non-quote characters, `\s*` is greedy
whitespace, `(.+?)` is a lazy plus of non-newline characters.  ASCII whitespace
is modelled (the claims only involve ASCII headers). -/

/-- ASCII whitespace, the characters matched by `\s` (and stripped by `str.strip`). -/
def isPySpace (c : Char) : Bool :=
  c == ' ' || c == '\t' || c == '\n' || c == '\r' || c == '\x0b' || c == '\x0c'

/-- `str.strip()` with no arguments: drop leading and trailing whitespace. -/
def pyStrip (s : String) : String :=
  String.mk (((s.toList.dropWhile isPySpace).reverse.dropWhile isPySpace).reverse)

/-- Lazy continuation of `(.+?)>` after its first captured character: return the
accumulated capture at the first `>`, fail at a newline or end of input. -/
def lazyGo (acc : List Char) : List Char → Option String
  | [] => none
  | c :: rest =>
    if c == '>' then some (String.mk acc.reverse)
    else if c == '\n' then none
    else lazyGo (c :: acc) rest

/-- Match `(.+?)>` (lazy, at least one non-newline character) and return the capture. -/
def lazyCapture : List Char → Option String
  | [] => none
  | c :: rest => if c == '\n' then none else lazyGo [c] rest

/-- Match `\s*<(.+?)>` anchored at the input; the greedy `\s*` before the literal
`<` is deterministic because whitespace is never `<`. -/
def tailPart : List Char → Option String
  | [] => none
  | c :: rest =>
    if isPySpace c then tailPart rest
    else if c == '<' then lazyCapture rest
    else none

/-- Match the second `"?` (greedy optional) followed by `\s*<(.+?)>`. -/
def afterStar (cs : List Char) : Option String :=
  match cs with
  | [] => tailPart []
  | c :: rest =>
    if c == '\"' then (tailPart rest).orElse (fun _ => tailPart (c :: rest))
    else tailPart (c :: rest)

/-- Greedy `[^"]*` followed by `"?\s*<(.+?)>`, longest consumption first with
backtracking. -/
def starLoop : List Char → Option String
  | [] => afterStar []
  | c :: rest =>
    if c == '\"' then afterStar (c :: rest)
    else (starLoop rest).orElse (fun _ => afterStar (c :: rest))

/-- The whole pattern `"?([^"]*)"?\s*<(.+?)>` anchored at the input, with the
leading `"?` greedy. -/
def anchoredMatch (cs : List Char) : Option String :=
  match cs with
  | [] => starLoop []
  | c :: rest =>
    if c == '\"' then (starLoop rest).orElse (fun _ => starLoop (c :: rest))
    else starLoop (c :: rest)

/-- `re.search`: try the anchored pattern at each position, leftmost first,
returning the second capture group of the first match. -/
def searchLoop : List Char → Option String
  | [] => anchoredMatch []
  | c :: rest => (anchoredMatch (c :: rest)).orElse (fun _ => searchLoop rest)

/-- The `clean_email` computation in `create_draft_email` (src/main.py lines
226-232): `group(2)` of the first match of the pattern, else `to.strip()`. -/
def extract_clean_email (toAddr : String) : String :=
  match searchLoop toAddr.toList with
  | some g2 => g2
  | none => pyStrip toAddr

example : extract_clean_email "\"Anna Smith\" <anna.smith@email.com>" = "anna.smith@email.com" := by decide
example : extract_clean_email "  anna.smith@email.com " = "anna.smith@email.com" := by decide
example : extract_clean_email "Bob <b@x.io>" = "b@x.io" := by decide

/-! ## Pipeline embedding (src/main.py lines 49-103, 178-207, 224-298)

External calls that can raise are `Except Unit`-valued fields of an `Env`;
an uncaught exception propagates as `Except.error` out of the message loop. -/

/-- The closed category enumeration of the `MailCategory` pydantic schema
(src/main.py lines 94-98). -/
inductive Category where
  | order_status
  | product_return
  | stock_inquiry
  | other
  | product_complaint
deriving DecidableEq, Repr

/-- The string value each `Literal` label denotes. -/
def categoryStr : Category → String
  | .order_status => "order_status"
  | .product_return => "product_return"
  | .stock_inquiry => "stock_inquiry"
  | .other => "other"
  | .product_complaint => "product_complaint"

/-- `MailCategory` structured-output model (src/main.py lines 94-98); the
backend is schema-constrained to one of the five labels. -/
structure MailCategory where
  category : Category
deriving DecidableEq, Repr

/-- A raw Gmail message as returned by `users().messages().get(format='full')`:
its id, the `payload.headers` name/value list, and the snippet. -/
structure RawMessage where
  id : String
  headers : List (String × String)
  snippet : String
deriving DecidableEq, Repr

/-- The summarized dict built by `get_message_content` (src/main.py lines 83-88). -/
structure EmailContent where
  id : String
  subject : String
  sender : String
  snippet : String
deriving DecidableEq, Repr

/-- A created draft resource, as returned by `drafts().create(...).execute()`. -/
structure Draft where
  id : String
deriving DecidableEq, Repr

/-- A page of `users().messages().list(...).execute()`: the optional
`messages` key (ids) and the optional `nextPageToken`. -/
structure ListResponse where
  messages : Option (List String)
  nextPageToken : Option String
deriving DecidableEq, Repr

/-- The external collaborators of the pipeline: the Gmail service, the two LLM
calls, the MIME/base64 encoder and `html.unescape`.  A field returning
`Except.error ()` models the Python call raising an exception. -/
structure Env where
  get_raw : String → Except Unit RawMessage
  classify : String → Except Unit MailCategory
  llm_invoke : String → Except Unit String
  encodeMime : String → String → String → String
  drafts_create : String → Except Unit Draft
  unescape : String → String

/-- One external-call event of a run, recorded for the temporal claims. -/
inductive Event where
  | fetchCall (id : String)
  | classifyCall (snippet : String)
  | composeCall (prompt : String)
  | draftCall (toAddr subject : String)
deriving DecidableEq, Repr

/-- Whether an event is an invocation of the response composer's LLM call. -/
def Event.isCompose : Event → Bool
  | .composeCall _ => true
  | _ => false

/-- Whether an event is a draft-creation call. -/
def Event.isDraft : Event → Bool
  | .draftCall _ _ => true
  | _ => false

/-- First header value with the given name: `next(h['value'] for h in headers
if h['name'] == name)`, `none` when the generator is exhausted. -/
def findHeaderValue (headers : List (String × String)) (name : String) : Option String :=
  (headers.find? (fun h => h.1 == name)).map Prod.snd

/-- `get_message_content` (src/main.py lines 71-91): fetch the full message and
pick out subject, sender and unescaped snippet.  The `try`/`except` catches
both a failing API call and the `StopIteration` of a missing header, returning
`None` (here `none`). -/
def get_message_content (env : Env) (message_id : String) : Option EmailContent :=
  match env.get_raw message_id with
  | .error _ => none
  | .ok m =>
    match findHeaderValue m.headers "Subject", findHeaderValue m.headers "From" with
    | some subject, some sender =>
        some { id := m.id, subject := subject, sender := sender,
               snippet := env.unescape m.snippet }
    | _, _ => none

/-- The composer prompt f-string (src/main.py lines 189-202).  `email_content`
always carries the `subject` and `snippet` keys here, so the dict-get defaults
never apply. -/
def buildPrompt (subject snippet context : String) : String :=
  "\n        You are a customer service representative for a sports equipment store.\n        Please generate a professional and helpful response to the customer email below.\n        Use the provided context information to give accurate details.\n\n        Original Email:\n        Subject: " ++
    subject ++ "\n        Content: " ++ snippet ++
    "\n\n        Additional Context:\n        " ++ context ++
    "\n\n        Generate a polite and informative response:\n        "

/-- `EmailResponseGenerator.generate_response` (src/main.py lines 183-207): no
`try`/`except`, so a raising `llm.invoke` propagates. -/
def generate_response (db : MockDatabase) (env : Env) (category : String)
    (content : EmailContent) : Except Unit String :=
  env.llm_invoke (buildPrompt content.subject content.snippet (get_context db category))

/-- `create_draft_email` (src/main.py lines 224-256): extract the clean address,
encode the MIME message, submit the draft; the catch-all `except` turns any
failure into `None`.  Also returns the draft-call event for the trace. -/
def create_draft_email (env : Env) (toAddr subject message_body : String) :
    Option Draft × List Event :=
  let clean_email := extract_clean_email toAddr
  let raw_message := env.encodeMime clean_email subject message_body
  match env.drafts_create raw_message with
  | .ok d => (some d, [.draftCall clean_email subject])
  | .error _ => (none, [.draftCall clean_email subject])

/-- Terminal state of one message in a run, per the spec's state machine:
`Skipped` for category `other`, `Drafted` on a created draft, `Failed` on a
fetch failure or a draft-submission failure. -/
inductive TermState where
  | Skipped
  | Drafted
  | Failed
deriving DecidableEq, Repr

/-- One iteration of the `__main__` message loop (src/main.py lines 267-298) on
one message id: the terminal state, or `Except.error ()` when an uncaught
exception (classifier or composer) propagates, paired with the trace of
external calls made. -/
def processMessage (db : MockDatabase) (env : Env) (msgId : String) :
    Except Unit TermState × List Event :=
  match get_message_content env msgId with
  | none => (.ok .Failed, [.fetchCall msgId])
  | some content =>
    match env.classify content.snippet with
    | .error e => (.error e, [.fetchCall msgId, .classifyCall content.snippet])
    | .ok mail_category =>
      if categoryStr mail_category.category ∈ ["other"] then
        (.ok .Skipped, [.fetchCall msgId, .classifyCall content.snippet])
      else
        let prompt := buildPrompt content.subject content.snippet
          (get_context db (categoryStr mail_category.category))
        match generate_response db env (categoryStr mail_category.category) content with
        | .error e =>
            (.error e,
             [.fetchCall msgId, .classifyCall content.snippet, .composeCall prompt])
        | .ok response =>
          let dr := create_draft_email env content.sender
            ("Re: " ++ content.subject) response
          match dr.1 with
          | some _ =>
              (.ok .Drafted,
               [.fetchCall msgId, .classifyCall content.snippet, .composeCall prompt]
                 ++ dr.2)
          | none =>
              (.ok .Failed,
               [.fetchCall msgId, .classifyCall content.snippet, .composeCall prompt]
                 ++ dr.2)

/-- The `__main__` loop over the fetched batch: the terminal states assigned in
order, and whether the run aborted with an uncaught exception (in which case
the failing message and all later ones get no state). -/
def runP (db : MockDatabase) (env : Env) : List String → List (String × TermState) × Bool
  | [] => ([], false)
  | m :: ms =>
    match (processMessage db env m).1 with
    | .error _ => ([], true)
    | .ok st => ((m, st) :: (runP db env ms).1, (runP db env ms).2)

/-- The body of `list_messages`' `while 'nextPageToken' in response` loop
(src/main.py lines 58-63): each further page is fetched with `execute()` (which
may raise) and its `['messages']` key is read unconditionally (a missing key
raises `KeyError`).  Running out of supplied pages while a token remains models
the next `execute()` call raising. -/
def pageLoop : List String → Option String → List (Except Unit ListResponse) →
    Except Unit (List String)
  | acc, none, _ => Except.ok acc
  | _, some _, [] => Except.error ()
  | acc, some _, p :: rest =>
    match p with
    | .error e => Except.error e
    | .ok r =>
      match r.messages with
      | none => Except.error ()
      | some ms => pageLoop (acc ++ ms) r.nextPageToken rest

/-- The `try` body of `list_messages` (src/main.py lines 50-65): first response,
optional `messages` key, then the pagination loop. -/
def list_messages_core (first : Except Unit ListResponse)
    (pages : List (Except Unit ListResponse)) : Except Unit (List String) :=
  match first with
  | .error e => Except.error e
  | .ok r0 =>
    pageLoop (match r0.messages with | some ms => ms | none => [])
      r0.nextPageToken pages

/-- `list_messages` (src/main.py lines 49-68): the catch-all `except` logs and
returns the empty list. -/
def list_messages (first : Except Unit ListResponse)
    (pages : List (Except Unit ListResponse)) : List String :=
  match list_messages_core first pages with
  | .ok ms => ms
  | .error _ => []

/-! ## Theorems -/

/-- Claim C4: with the catalog created at startup, resolving context for
category `order_status` returns exactly
`"Order ORD54321 is processing. Tracking number: Not yet available"`. -/
theorem claim_C4_startup_order_context :
    get_context MockDatabase.init "order_status" =
      "Order ORD54321 is processing. Tracking number: Not yet available" := by
  decide

/-- Claim C3: the context-resolution function is pure and total: for every
category string and every lookup-store state it returns a non-empty string,
and when the looked-up order (for `order_status`) or product (for
`stock_inquiry`) is absent it returns exactly
`"No additional context available"`. -/
theorem claim_C3_get_context_total (db : MockDatabase) (category : String) :
    0 < (get_context db category).length ∧
    (category = "order_status" → get_order_status db "ORD54321" = none →
      get_context db category = "No additional context available") ∧
    (category = "stock_inquiry" → check_stock db "ADIDAS001" = none →
      get_context db category = "No additional context available") := by
  refine ⟨?_, ?_, ?_⟩
  · unfold get_context
    have h1 : 0 < ("Order ORD54321 is " : String).length := by decide
    have h2 : 0 < ("Product " : String).length := by decide
    have h3 : 0 < ("No additional context available" : String).length := by decide
    split
    · split
      · simp only [String.length_append]; omega
      · exact h3
    · split
      · split
        · simp only [String.length_append]; omega
        · exact h3
      · exact h3
  · intro hc habs
    subst hc
    simp [get_context, habs]
  · intro hc habs
    subst hc
    simp [get_context, habs]

/-- Claim C3 witness: the theorem applied to the empty catalog and category
`"order_status"`, where the looked-up order is absent. -/
theorem claim_C3_get_context_total_witness :
    get_order_status ⟨[], []⟩ "ORD54321" = none ∧
    get_context ⟨[], []⟩ "order_status" = "No additional context available" :=
  ⟨by decide, (claim_C3_get_context_total ⟨[], []⟩ "order_status").2.1 rfl (by decide)⟩

/-- Claim C8: `check_stock`, `get_order_status` and `search_orders_by_email`
are side-effect-free (the object state after each call is the state before),
and `check_stock`/`get_order_status` are idempotent: a repeated call with the
same id, on the state left by the first call, returns an equal result. -/
theorem claim_C8_lookups_pure (db : MockDatabase) (pid oid em : String) :
    (check_stock_call db pid).2 = db ∧
    (get_order_status_call db oid).2 = db ∧
    (search_orders_by_email_call db em).2 = db ∧
    (check_stock_call ((check_stock_call db pid).2) pid).1 = (check_stock_call db pid).1 ∧
    (get_order_status_call ((get_order_status_call db oid).2) oid).1 =
      (get_order_status_call db oid).1 ∧
    (search_orders_by_email_call ((search_orders_by_email_call db em).2) em).1 =
      (search_orders_by_email_call db em).1 :=
  ⟨rfl, rfl, rfl, rfl, rfl, rfl⟩

/-- Without a `<` in the input, `\s*<(.+?)>` cannot match. -/
theorem tailPart_eq_none {cs : List Char} (h : '<' ∉ cs) : tailPart cs = none := by
  induction cs with
  | nil => rfl
  | cons c rest ih =>
    simp only [List.mem_cons, not_or] at h
    unfold tailPart
    by_cases hs : isPySpace c
    · simp [hs, ih h.2]
    · have hne : (c == '<') = false := beq_eq_false_iff_ne.mpr (fun hc => h.1 hc.symm)
      simp [hs, hne]

/-- Without a `<` in the input, the `"?\s*<(.+?)>` suffix cannot match. -/
theorem afterStar_eq_none {cs : List Char} (h : '<' ∉ cs) : afterStar cs = none := by
  cases cs with
  | nil => rfl
  | cons c rest =>
    have hrest : '<' ∉ rest := fun hm => h (List.mem_cons_of_mem _ hm)
    unfold afterStar
    by_cases hq : c == '\"'
    · simp [hq, tailPart_eq_none hrest, tailPart_eq_none h, Option.orElse]
    · simp [hq, tailPart_eq_none h]

/-- Without a `<` in the input, `[^"]*"?\s*<(.+?)>` cannot match. -/
theorem starLoop_eq_none {cs : List Char} (h : '<' ∉ cs) : starLoop cs = none := by
  induction cs with
  | nil => rfl
  | cons c rest ih =>
    have hrest : '<' ∉ rest := fun hm => h (List.mem_cons_of_mem _ hm)
    unfold starLoop
    by_cases hq : c == '\"'
    · simp [hq, afterStar_eq_none h]
    · simp [hq, ih hrest, afterStar_eq_none h, Option.orElse]

/-- Without a `<` in the input, the anchored pattern cannot match. -/
theorem anchoredMatch_eq_none {cs : List Char} (h : '<' ∉ cs) : anchoredMatch cs = none := by
  cases cs with
  | nil => rfl
  | cons c rest =>
    have hrest : '<' ∉ rest := fun hm => h (List.mem_cons_of_mem _ hm)
    unfold anchoredMatch
    by_cases hq : c == '\"'
    · simp [hq, starLoop_eq_none hrest, starLoop_eq_none h, Option.orElse]
    · simp [hq, starLoop_eq_none h]

/-- Without a `<` in the input, `re.search` of the pattern finds no match. -/
theorem searchLoop_eq_none {cs : List Char} (h : '<' ∉ cs) : searchLoop cs = none := by
  induction cs with
  | nil => rfl
  | cons c rest ih =>
    have hrest : '<' ∉ rest := fun hm => h (List.mem_cons_of_mem _ hm)
    unfold searchLoop
    simp [anchoredMatch_eq_none h, ih hrest, Option.orElse]

/-- Claim C5: address extraction for draft creation.  For the sender header
`"Anna Smith" <anna.smith@email.com>` the extracted recipient equals
`anna.smith@email.com`, and for any sender header containing no angle-bracket
pattern (no `<` at all) the extracted address is the raw header stripped of
surrounding whitespace. -/
theorem claim_C5_address_extraction :
    extract_clean_email "\"Anna Smith\" <anna.smith@email.com>" = "anna.smith@email.com" ∧
    ∀ toAddr : String, '<' ∉ toAddr.toList →
      extract_clean_email toAddr = pyStrip toAddr := by
  refine ⟨by decide, ?_⟩
  intro toAddr h
  unfold extract_clean_email
  rw [searchLoop_eq_none h]

/-- Claim C5 witness: a plain address with surrounding spaces and no angle
brackets is returned trimmed. -/
theorem claim_C5_address_extraction_witness :
    ('<' ∉ ("  bob@example.com " : String).toList) ∧
    extract_clean_email "  bob@example.com " = pyStrip "  bob@example.com " :=
  ⟨by decide, claim_C5_address_extraction.2 "  bob@example.com " (by decide)⟩

/-- A fully cooperative environment: every message fetches with fixed headers
and a snippet equal to its id, classification returns `order_status`, the LLM
and the draft call succeed. -/
def envOk : Env :=
  { get_raw := fun i =>
      Except.ok { id := i,
                  headers := [("Subject", "Hi"),
                              ("From", "\"Anna Smith\" <anna.smith@email.com>")],
                  snippet := i },
    classify := fun _ => Except.ok { category := Category.order_status },
    llm_invoke := fun _ => Except.ok "Dear customer, thank you for reaching out.",
    encodeMime := fun a b c => a ++ "|" ++ b ++ "|" ++ c,
    drafts_create := fun _ => Except.ok { id := "draft1" },
    unescape := fun s => s }

/-- If the loop body raises an uncaught exception on the first message, the
whole run aborts with no terminal state assigned to any message. -/
theorem runP_abort (db : MockDatabase) (env : Env) (m : String) (ms : List String)
    (h : (processMessage db env m).1 = Except.error ()) :
    runP db env (m :: ms) = ([], true) := by
  unfold runP
  rw [h]

/-- Claim C6: for every message classified as `other`, the loop yields
`Skipped`; the response composer's LLM is never invoked and no draft-creation
call is made for that message. -/
theorem claim_C6_other_skipped (db : MockDatabase) (env : Env) (m : String)
    (content : EmailContent)
    (hfetch : get_message_content env m = some content)
    (hclass : env.classify content.snippet = Except.ok { category := Category.other }) :
    (processMessage db env m).1 = Except.ok TermState.Skipped ∧
    ∀ e ∈ (processMessage db env m).2, e.isCompose = false ∧ e.isDraft = false := by
  have hp : processMessage db env m =
      (Except.ok TermState.Skipped, [.fetchCall m, .classifyCall content.snippet]) := by
    simp [processMessage, hfetch, hclass, categoryStr]
  rw [hp]
  refine ⟨rfl, ?_⟩
  intro e he
  simp only [List.mem_cons, List.not_mem_nil, or_false] at he
  rcases he with rfl | rfl
  · exact ⟨rfl, rfl⟩
  · exact ⟨rfl, rfl⟩

/-- An environment whose classifier always answers `other`. -/
def envOther : Env :=
  { envOk with classify := fun _ => Except.ok { category := Category.other } }

/-- Claim C6 witness: a concrete message classified `other` is skipped with no
compose and no draft call. -/
theorem claim_C6_other_skipped_witness :
    (processMessage MockDatabase.init envOther "m1").1 = Except.ok TermState.Skipped ∧
    ∀ e ∈ (processMessage MockDatabase.init envOther "m1").2,
      e.isCompose = false ∧ e.isDraft = false :=
  claim_C6_other_skipped MockDatabase.init envOther "m1"
    { id := "m1", subject := "Hi", sender := "\"Anna Smith\" <anna.smith@email.com>",
      snippet := "m1" } rfl rfl

/-- Claim C10: a fetched message whose headers lack a `Subject` or a `From`
entry makes `get_message_content` return `none` (the header-scan
`StopIteration` is caught), so the loop treats it as a fetch failure: it ends
`Failed` and no draft call is made for it. -/
theorem claim_C10_missing_header_failed (db : MockDatabase) (env : Env) (m : String)
    (raw : RawMessage)
    (hraw : env.get_raw m = Except.ok raw)
    (hmiss : findHeaderValue raw.headers "Subject" = none ∨
             findHeaderValue raw.headers "From" = none) :
    get_message_content env m = none ∧
    (processMessage db env m).1 = Except.ok TermState.Failed ∧
    ∀ e ∈ (processMessage db env m).2, e.isDraft = false := by
  have hnone : get_message_content env m = none := by
    unfold get_message_content
    rw [hraw]
    rcases hsub : findHeaderValue raw.headers "Subject" with _ | s
    · rcases hfrom : findHeaderValue raw.headers "From" with _ | f
      · simp [hsub, hfrom]
      · simp [hsub, hfrom]
    · rcases hfrom : findHeaderValue raw.headers "From" with _ | f
      · simp [hsub, hfrom]
      · exfalso
        rcases hmiss with h | h
        · rw [hsub] at h; exact Option.noConfusion h
        · rw [hfrom] at h; exact Option.noConfusion h
  have hp : processMessage db env m = (Except.ok TermState.Failed, [.fetchCall m]) := by
    simp [processMessage, hnone]
  rw [hp]
  refine ⟨hnone, rfl, ?_⟩
  intro e he
  simp only [List.mem_cons, List.not_mem_nil, or_false] at he
  subst he
  rfl

/-- An environment whose messages carry only a `Subject` header, no `From`. -/
def envNoFrom : Env :=
  { envOk with get_raw := fun i =>
      Except.ok { id := i, headers := [("Subject", "Hi")], snippet := i } }

/-- Claim C10 witness: a message without a `From` header ends `Failed` with no
draft call. -/
theorem claim_C10_missing_header_failed_witness :
    get_message_content envNoFrom "m1" = none ∧
    (processMessage MockDatabase.init envNoFrom "m1").1 = Except.ok TermState.Failed ∧
    ∀ e ∈ (processMessage MockDatabase.init envNoFrom "m1").2, e.isDraft = false :=
  claim_C10_missing_header_failed MockDatabase.init envNoFrom "m1"
    { id := "m1", headers := [("Subject", "Hi")], snippet := "m1" }
    rfl (Or.inr rfl)

/-- Claim C9: if the `try` body of `list_messages` raises anywhere (first call,
a pagination call, or a later page missing the `messages` key), the function
returns the empty list, and the run then processes zero messages and completes
without aborting. -/
theorem claim_C9_listing_error (first : Except Unit ListResponse)
    (pages : List (Except Unit ListResponse)) (db : MockDatabase) (env : Env)
    (h : list_messages_core first pages = Except.error ()) :
    list_messages first pages = [] ∧
    runP db env (list_messages first pages) = ([], false) := by
  have h1 : list_messages first pages = [] := by
    unfold list_messages
    rw [h]
  exact ⟨h1, by rw [h1]; rfl⟩

/-- Claim C9 witness: the session fails on the second page of the listing; the
whole listing collapses to the empty batch and the run completes with no
processed message. -/
theorem claim_C9_listing_error_witness :
    list_messages_core (Except.ok { messages := some ["m1"], nextPageToken := some "t" })
      [Except.error ()] = Except.error () ∧
    list_messages (Except.ok { messages := some ["m1"], nextPageToken := some "t" })
      [Except.error ()] = [] ∧
    runP MockDatabase.init envOk
      (list_messages (Except.ok { messages := some ["m1"], nextPageToken := some "t" })
        [Except.error ()]) = ([], false) :=
  ⟨rfl,
   (claim_C9_listing_error
     (Except.ok { messages := some ["m1"], nextPageToken := some "t" })
     [Except.error ()] MockDatabase.init envOk rfl).1,
   (claim_C9_listing_error
     (Except.ok { messages := some ["m1"], nextPageToken := some "t" })
     [Except.error ()] MockDatabase.init envOk rfl).2⟩

/-- A fetch failure yields `Failed` for that message without aborting the loop. -/
theorem processMessage_fetch_failed (db : MockDatabase) (env : Env) (m : String)
    (h : get_message_content env m = none) :
    processMessage db env m = (Except.ok TermState.Failed, [.fetchCall m]) := by
  simp [processMessage, h]

/-- Claim C7: fetch-failure isolation.  If fetching the content of message `x`
fails while every other message of the batch processes to completion
(`Drafted`), then the run does not abort: `x` ends `Failed` and every other
message ends `Drafted`, in batch order. -/
theorem claim_C7_fetch_isolation (db : MockDatabase) (env : Env) (x : String)
    (ms : List String)
    (hx : get_message_content env x = none)
    (hok : ∀ m ∈ ms, m ≠ x → (processMessage db env m).1 = Except.ok TermState.Drafted) :
    runP db env ms =
      (ms.map (fun m => (m, if m = x then TermState.Failed else TermState.Drafted)),
       false) := by
  induction ms with
  | nil => rfl
  | cons m rest ih =>
    have hrest : ∀ m' ∈ rest, m' ≠ x →
        (processMessage db env m').1 = Except.ok TermState.Drafted :=
      fun m' hm' => hok m' (List.mem_cons_of_mem _ hm')
    by_cases hmx : m = x
    · subst hmx
      have hfail : (processMessage db env m).1 = Except.ok TermState.Failed := by
        rw [processMessage_fetch_failed db env m hx]
      unfold runP
      rw [hfail, ih hrest]
      simp
    · have hdraft : (processMessage db env m).1 = Except.ok TermState.Drafted :=
        hok m (List.mem_cons_self m rest) hmx
      unfold runP
      rw [hdraft, ih hrest]
      simp [hmx]

/-- An environment like `envOk` except that fetching message `"x"` raises. -/
def envFetchFail : Env :=
  { envOk with get_raw := fun i =>
      if i == "x" then Except.error ()
      else Except.ok { id := i,
                       headers := [("Subject", "Hi"),
                                   ("From", "\"Anna Smith\" <anna.smith@email.com>")],
                       snippet := i } }

/-- Claim C7 witness: in the batch `["a", "x", "c"]` whose member `"x"` fails
to fetch, `"x"` ends `Failed` and the others end `Drafted`. -/
theorem claim_C7_fetch_isolation_witness :
    get_message_content envFetchFail "x" = none ∧
    runP MockDatabase.init envFetchFail ["a", "x", "c"] =
      ([("a", TermState.Drafted), ("x", TermState.Failed), ("c", TermState.Drafted)],
       false) := by
  refine ⟨rfl, ?_⟩
  have h := claim_C7_fetch_isolation MockDatabase.init envFetchFail "x" ["a", "x", "c"]
    rfl ?_
  · rw [h]
    rfl
  · intro m hm hne
    fin_cases hm
    · rfl
    · exact absurd rfl hne
    · rfl

/-- An environment whose classifier call always raises. -/
def envClassifyRaises : Env :=
  { envOk with classify := fun _ => Except.error () }

/-- Claim C1 counterexample: with a classifier call that raises on the first
message of the batch `["m1", "m2"]`, the run aborts at once: no message is
assigned a terminal state (in particular `"m1"` does not end `Failed`) and
`"m2"` is never processed, contradicting the claim that the exception is
confined to the failing message. -/
theorem claim_C1_counterexample :
    runP MockDatabase.init envClassifyRaises ["m1", "m2"] = ([], true) ∧
    ("m1", TermState.Failed) ∉ (runP MockDatabase.init envClassifyRaises ["m1", "m2"]).1 := by
  exact ⟨rfl, by decide⟩

/-- Claim C1 amended: an exception raised by the classifier call or by the
composer's LLM call is not caught by the message loop: the run aborts
immediately, assigning no terminal state to the failing message nor to any
remaining message of the batch.  (Only fetch failures and draft-submission
failures are isolated at message granularity.) -/
theorem claim_C1_amended_backend_error_aborts (db : MockDatabase) (env : Env)
    (m : String) (ms : List String) (content : EmailContent)
    (hfetch : get_message_content env m = some content) :
    (env.classify content.snippet = Except.error () →
      runP db env (m :: ms) = ([], true)) ∧
    (∀ mc : MailCategory, env.classify content.snippet = Except.ok mc →
      categoryStr mc.category ∉ ["other"] →
      env.llm_invoke (buildPrompt content.subject content.snippet
        (get_context db (categoryStr mc.category))) = Except.error () →
      runP db env (m :: ms) = ([], true)) := by
  constructor
  · intro hclass
    apply runP_abort
    simp [processMessage, hfetch, hclass]
  · intro mc hclass hother hllm
    apply runP_abort
    have hne : ¬(categoryStr mc.category = "other") := by simpa using hother
    simp [processMessage, generate_response, hfetch, hclass, hne, hllm]

/-- An environment whose composer LLM call always raises (classification
succeeds with `order_status`). -/
def envComposeRaises : Env :=
  { envOk with llm_invoke := fun _ => Except.error () }

/-- Claim C1 amended witness: both conjuncts applied to concrete runs — a
raising classifier aborts the batch `["m1", "m2"]`, and a raising composer
aborts the batch `["k1", "k2"]`. -/
theorem claim_C1_amended_backend_error_aborts_witness :
    runP MockDatabase.init envClassifyRaises ["m1", "m2"] = ([], true) ∧
    runP MockDatabase.init envComposeRaises ["k1", "k2"] = ([], true) :=
  ⟨(claim_C1_amended_backend_error_aborts MockDatabase.init envClassifyRaises
      "m1" ["m2"]
      { id := "m1", subject := "Hi", sender := "\"Anna Smith\" <anna.smith@email.com>",
        snippet := "m1" } rfl).1 rfl,
   (claim_C1_amended_backend_error_aborts MockDatabase.init envComposeRaises
      "k1" ["k2"]
      { id := "k1", subject := "Hi", sender := "\"Anna Smith\" <anna.smith@email.com>",
        snippet := "k1" } rfl).2
     { category := Category.order_status } rfl (by decide) rfl⟩

/-- An environment whose classifier raises exactly on the snippet `"n2"`
(each message's snippet equals its id under `envOk`). -/
def envClassifyRaisesOnN2 : Env :=
  { envOk with classify := fun sn =>
      if sn == "n2" then Except.error ()
      else Except.ok { category := Category.order_status } }

/-- Claim C2 counterexample: in the batch `["n1", "n2"]` whose second message
makes the classifier raise, the run aborts after `"n1"`: message `"n2"` of the
fetched batch is assigned no terminal state at all, contradicting the claim
that every message of the batch ends in exactly one of
`{Skipped, Drafted, Failed}`. -/
theorem claim_C2_counterexample :
    runP MockDatabase.init envClassifyRaisesOnN2 ["n1", "n2"] =
      ([("n1", TermState.Drafted)], true) ∧
    "n2" ∉ (runP MockDatabase.init envClassifyRaisesOnN2 ["n1", "n2"]).1.map Prod.fst := by
  exact ⟨rfl, by decide⟩

/-- Claim C2 amended: provided the run does not abort (no classifier or
composer exception), the loop assigns every message of the fetched batch
exactly one terminal state, in batch order — so each message is processed
exactly once; the state type has exactly the three values
`Skipped`, `Drafted`, `Failed`. -/
theorem claim_C2_amended_one_state_per_message (db : MockDatabase) (env : Env)
    (ms : List String) (h : (runP db env ms).2 = false) :
    (runP db env ms).1.map Prod.fst = ms := by
  induction ms with
  | nil => rfl
  | cons m rest ih =>
    unfold runP at h ⊢
    cases hp : (processMessage db env m).1 with
    | error e =>
      rw [hp] at h
      exact Bool.noConfusion h
    | ok st =>
      rw [hp] at h
      show List.map Prod.fst ((m, st) :: (runP db env rest).1) = m :: rest
      rw [List.map_cons]
      exact congrArg (m :: ·) (ih h)

/-- Claim C2 amended witness: a fully cooperative two-message run does not
abort and assigns exactly one terminal state to each message, in order. -/
theorem claim_C2_amended_one_state_per_message_witness :
    (runP MockDatabase.init envOk ["n1", "n2"]).2 = false ∧
    (runP MockDatabase.init envOk ["n1", "n2"]).1.map Prod.fst = ["n1", "n2"] :=
  ⟨rfl, claim_C2_amended_one_state_per_message MockDatabase.init envOk ["n1", "n2"] rfl⟩
